import Mathlib

/-!
# Verification of the enthought/graph build script

The repository consists of a single file, `setup.py`, a distutils/Cython
build script.  This development gives a shallow embedding of that script:
the path manipulation it performs (`os.path.join`), the three
`distutils.extension.Extension` objects it constructs (lines 6-8), the
keyword configuration it passes to `distutils.core.setup` (lines 10-14),
the set of files present in the repository snapshot, and the verbatim text
of the script itself.  The theorems at the end settle the specification
claims about this configuration.
-/

namespace SetupPy

/-- Split a character list at every occurrence of the separator `c`.
Splitting the empty text yields one empty piece, and `n` separators yield
`n + 1` pieces, as Python's `str.split` does. -/
def splitOnChar (c : Char) : List Char → List (List Char)
  | [] => [[]]
  | x :: xs =>
    let r := splitOnChar c xs
    if x = c then [] :: r
    else
      match r with
      | [] => [[x]]
      | y :: ys => (x :: y) :: ys

/-- Interleave the path separator between a list of path components. -/
def joinSep : List (List Char) → List Char
  | [] => []
  | [p] => p
  | p :: ps => p ++ '/' :: joinSep ps

/-- Whether `p` is an initial segment of `s`, via the underlying character
lists (Python's `str.startswith`). -/
def strStartsWith (s p : String) : Bool :=
  s.data.take p.data.length == p.data

/-- Whether `p` is a final segment of `s`, via the underlying character
lists (Python's `str.endswith`). -/
def strEndsWith (s p : String) : Bool :=
  s.data.reverse.take p.data.length == p.data.reverse

/-- Remove the suffix `suf` from `s` when it is present; otherwise return
`s` unchanged. -/
def dropSuffix (s suf : String) : String :=
  if strEndsWith s suf then String.mk (s.data.take (s.data.length - suf.data.length))
  else s

/-- The number of lines of a text: the newline-separated pieces, not
counting the empty final piece produced by a trailing newline (Python's
`str.splitlines`). -/
def lineCount (s : String) : Nat :=
  match splitOnChar '\n' s.data with
  | [] => 0
  | parts => if parts.getLast? = some [] then parts.length - 1 else parts.length

/-- The platform path separator `os.sep`; the model fixes the POSIX value. -/
def osSep : String := "/"

/-- Model of `os.path.join` on two arguments (`posixpath.join`): an
absolute second component replaces the first; otherwise the components are
concatenated, inserting the separator unless the first is empty or already
ends with it. -/
def osPathJoin (a b : String) : String :=
  if strStartsWith b osSep then b
  else if a = "" then a ++ b
  else if strEndsWith a osSep then a ++ b
  else a ++ osSep ++ b

/-- `os.path.basename` for the relative paths the script builds: the
component after the last separator. -/
def basename (p : String) : String :=
  String.mk ((splitOnChar '/' p.data).getLastD [])

/-- `os.path.dirname` for the relative paths the script builds: the
components before the last separator, rejoined. -/
def dirname (p : String) : String :=
  String.mk (joinSep ((splitOnChar '/' p.data).dropLast))

/-- `distutils.extension.Extension`, restricted to the two fields setup.py
supplies: the dotted module name and the list of source files. -/
structure Extension where
  name : String
  sources : List String
deriving DecidableEq, Repr

/-- The `build_ext` command implementations in scope in setup.py: the
distutils default, and `Cython.Distutils.build_ext` imported on line 4. -/
inductive CmdClass where
  | distutilsBuildExt
  | cythonBuildExt
deriving DecidableEq, Repr

/-- The keyword arguments setup.py passes to `distutils.core.setup`
(lines 10-14). -/
structure SetupConfig where
  cmdclass : List (String × CmdClass)
  ext_modules : List Extension
  package_dir : List (String × String)
  packages : List String
deriving DecidableEq, Repr

/-- setup.py line 6. -/
def c_collections : Extension :=
  { name := "cgraph.c_collections"
    sources := [osPathJoin "cgraph" "c_collections.pyx"] }

/-- setup.py line 7. -/
def dagraph : Extension :=
  { name := "cgraph.dagraph"
    sources := [osPathJoin "cgraph" "dagraph.pyx"] }

/-- setup.py line 8. -/
def iterators : Extension :=
  { name := "cgraph.iterators"
    sources := [osPathJoin "cgraph" "iterators.pyx"] }

/-- The configuration built by the `setup(...)` call, setup.py lines 10-14. -/
def setupConfig : SetupConfig :=
  { cmdclass := [("build_ext", CmdClass.cythonBuildExt)]
    ext_modules := [c_collections, dagraph, iterators]
    package_dir := [("cgraph", "./cgraph")]
    packages := ["cgraph"] }

/-- Running the script: setup.py is straight-line code that consults
neither the process environment nor the command line while constructing
the configuration it hands to `setup`, so as a function of those inputs it
is constant. -/
def runSetup (_env : List (String × String)) (_argv : List String) : SetupConfig :=
  setupConfig

/-- The files present in this repository snapshot: the snapshot contains
only `setup.py` itself. -/
def repoFiles : List String := ["setup.py"]

/-- The verbatim text of setup.py (559 bytes, no trailing newline). -/
def setupPySource : String := "import os\nfrom distutils.core import setup\nfrom distutils.extension import Extension\nfrom Cython.Distutils import build_ext\n\nc_collections = Extension(\x27cgraph.c_collections\x27, [os.path.join(\x27cgraph\x27, \x27c_collections.pyx\x27)])\ndagraph = Extension(\x27cgraph.dagraph\x27, [os.path.join(\x27cgraph\x27, \x27dagraph.pyx\x27)])\niterators = Extension(\x27cgraph.iterators\x27, [os.path.join(\x27cgraph\x27, \x27iterators.pyx\x27)])\n\nsetup(\n    cmdclass = \x7b\x27build_ext\x27: build_ext\x7d,\n    ext_modules = [c_collections, dagraph, iterators],\n    package_dir = \x7b\x27cgraph\x27: \x27./cgraph\x27\x7d,\n    packages = [\x27cgraph\x27],)"

end SetupPy

namespace SetupPy

/-- C1: the setup script declares exactly three extension modules, named
`cgraph.c_collections`, `cgraph.dagraph` and `cgraph.iterators`, and the
`ext_modules` list passed to `setup` contains them in exactly that order
(`c_collections` first, `dagraph` second, `iterators` third) and nothing
else. -/
theorem C1_ext_modules_exact :
    setupConfig.ext_modules.map Extension.name =
      ["cgraph.c_collections", "cgraph.dagraph", "cgraph.iterators"] := by
  decide

/-- C2: every declared extension has exactly one source path, and the
extension-name-to-source-file mapping is `cgraph.c_collections` to
`cgraph/c_collections.pyx`, `cgraph.dagraph` to `cgraph/dagraph.pyx`, and
`cgraph.iterators` to `cgraph/iterators.pyx`, the paths joined with the
platform path separator. -/
theorem C2_name_source_mapping :
    setupConfig.ext_modules.map (fun e => (e.name, e.sources)) =
      [("cgraph.c_collections", [osPathJoin "cgraph" "c_collections.pyx"]),
       ("cgraph.dagraph", [osPathJoin "cgraph" "dagraph.pyx"]),
       ("cgraph.iterators", [osPathJoin "cgraph" "iterators.pyx"])] ∧
    [osPathJoin "cgraph" "c_collections.pyx",
     osPathJoin "cgraph" "dagraph.pyx",
     osPathJoin "cgraph" "iterators.pyx"] =
      ["cgraph/c_collections.pyx", "cgraph/dagraph.pyx", "cgraph/iterators.pyx"] := by
  decide

/-- C3: for every source path declared by the three Extension objects, no
file at that path is present in the repository snapshot. -/
theorem C3_declared_sources_absent :
    ∀ e ∈ setupConfig.ext_modules, ∀ s ∈ e.sources, s ∉ repoFiles := by
  decide

/-- Witness for C3 at the first extension and its single source path. -/
theorem C3_declared_sources_absent_witness :
    "cgraph/c_collections.pyx" ∉ repoFiles :=
  C3_declared_sources_absent c_collections (by decide)
    "cgraph/c_collections.pyx" (by decide)

/-- C4: the setup call declares `packages == ['cgraph']` and `package_dir`
mapping `cgraph` to `./cgraph`, and every extension module name carries
the `cgraph.` package qualifier, so the compiled extensions are placed
under the single `cgraph` package directory. -/
theorem C4_package_layout :
    setupConfig.packages = ["cgraph"] ∧
    setupConfig.package_dir = [("cgraph", "./cgraph")] ∧
    setupConfig.ext_modules.all (fun e => strStartsWith e.name "cgraph.") = true := by
  decide

/-- C5: for every extension in `ext_modules`, its module name equals
`cgraph.` plus the basename of its single source file with the `.pyx`
suffix removed, and the directory component of that source path is
`cgraph`. -/
theorem C5_naming_invariant :
    setupConfig.ext_modules.all (fun e =>
      e.sources.length == 1 &&
      e.sources.all (fun s =>
        e.name == "cgraph." ++ dropSuffix (basename s) ".pyx" &&
        dirname s == "cgraph")) = true := by
  decide

/-- C6: the build script setup.py is exactly 14 lines long. -/
theorem C6_fourteen_lines : lineCount setupPySource = 14 := by
  decide

/-- C7: determinism / noninterference: the script reads neither the
environment nor the command line while building its configuration, so any
two executions, whatever their environment contents and arguments, pass
the identical configuration (extension names, source lists, cmdclass,
package_dir, packages) to `setup`. -/
theorem C7_noninterference :
    ∀ (env₁ env₂ : List (String × String)) (argv₁ argv₂ : List String),
      runSetup env₁ argv₁ = runSetup env₂ argv₂ := by
  intro _ _ _ _
  rfl

/-- C8: the `cmdclass` argument maps the `build_ext` command to
`Cython.Distutils.build_ext`, which is distinct from the distutils default
`build_ext`, and every declared source is a `.pyx` file, so the `.pyx`
sources are compiled by Cython's extension builder rather than the
distutils default. -/
theorem C8_cython_build :
    setupConfig.cmdclass = [("build_ext", CmdClass.cythonBuildExt)] ∧
    CmdClass.cythonBuildExt ≠ CmdClass.distutilsBuildExt ∧
    setupConfig.ext_modules.all
      (fun e => e.sources.all (fun s => strEndsWith s ".pyx")) = true := by
  decide

/-- C9: the single entry of `packages` equals the unique key of
`package_dir`, and every extension name splits on dots into exactly that
package name followed by its module component; no extension is declared
outside the declared package. -/
theorem C9_package_consistency :
    setupConfig.packages = setupConfig.package_dir.map Prod.fst ∧
    setupConfig.package_dir.length = 1 ∧
    setupConfig.ext_modules.all (fun e =>
      (splitOnChar '.' e.name.data).dropLast == ["cgraph".data]) = true := by
  decide

end SetupPy
